import Mathlib

/-!
Verification of the kernel-builder repository synchronization and
compliance-aggregation engine (crates kernel-compliance-check and compliant).

The Rust sources are shallowly embedded: strings are lists of characters,
the on-disk snapshot tree is an inductive tree of files and directories, the
external ABI policy oracle (an external collaborator) is represented by the
violation lists it returns for each parsed shared object, and fallible Rust
functions returning anyhow Result are embedded as Except.
-/

namespace KernelBuilder

/-- Strings of the embedded program are lists of characters, so that the
character-level operations of the Rust code (split on a dash, replace a
double dash, substring tests) can be reasoned about directly. -/
abbrev Str := List Char

/-- Whitespace trimming at both ends, embedding str::trim as applied to
the contents of a ref file. -/
def trimStr (s : Str) : Str :=
  ((s.dropWhile Char.isWhitespace).reverse.dropWhile Char.isWhitespace).reverse

/-! ## Variant identifier (compliant/src/lib.rs, struct Variant) -/

/-- The five-field build-variant identifier, from struct Variant in
compliant/src/lib.rs (all fields are strings, unvalidated). -/
structure Variant where
  torch_version : Str
  cxx_abi : Str
  compute_framework : Str
  arch : Str
  os : Str
deriving DecidableEq

/-- Display rendering of a variant, from impl fmt::Display for Variant:
the five fields joined with a dash, in declaration order. -/
def Variant.toString (v : Variant) : Str :=
  v.torch_version ++ '-' :: v.cxx_abi ++ '-' :: v.compute_framework ++
    '-' :: v.arch ++ '-' :: v.os

/-- Parsing of a directory name into a variant, from Variant::from_name:
split on a dash; fewer than five segments is a parse failure (none);
segments beyond the fifth are silently ignored. -/
def Variant.fromName (name : Str) : Option Variant :=
  let parts := name.splitOn '-'
  if h : parts.length < 5 then none
  else
    some { torch_version := parts.get ⟨0, by omega⟩
           cxx_abi := parts.get ⟨1, by omega⟩
           compute_framework := parts.get ⟨2, by omega⟩
           arch := parts.get ⟨3, by omega⟩
           os := parts.get ⟨4, by omega⟩ }

/-! ## On-disk model and ABI policy oracle

The ABI policy oracle (check_manylinux, check_python_abi from the
kernel-abi-check crate) is an external collaborator: a shared object is
represented in the model by the two violation lists the oracle returns for
it, or by unparseable when object::File::parse would fail on its bytes. -/

/-- Oracle outcome for one parsed shared object: the manylinux violations
and the Python-ABI violations that check_manylinux and check_python_abi
return for its symbols. -/
structure SoData where
  manylinuxViolations : List String
  pythonAbiViolations : List String
deriving DecidableEq

/-- Contents of a file on disk, as seen by check_shared_object: either the
bytes fail to parse as an object file, or they parse and the oracle yields
the recorded violation lists. -/
inductive SoFileContent where
  | unparseable : SoFileContent
  | parsed : SoData → SoFileContent
deriving DecidableEq

/-- A directory tree entry: a file with a name, an optional extension and
its contents, or a directory with a name and its entries. -/
inductive FsEntry where
  | file : Str → Option Str → SoFileContent → FsEntry
  | dir : Str → List FsEntry → FsEntry

/-- Recursive shared-object discovery, from find_shared_objects: walk the
entries in order, descend into every subdirectory, and collect every file
whose extension is so. The model returns the contents that a later
check_shared_object call would read at each collected path. -/
def findSharedObjects : List FsEntry → List SoFileContent
  | [] => []
  | .dir _ sub :: rest => findSharedObjects sub ++ findSharedObjects rest
  | .file _ ext content :: rest =>
      (if ext = some "so".data then [content] else []) ++ findSharedObjects rest

/-- The immediate subdirectories of a directory listing, in order, paired
with their names: the variant_paths computation of check_abi_for_repository
(files are skipped, no recursion, no name filtering). -/
def subdirs : List FsEntry → List (Str × List FsEntry)
  | [] => []
  | .dir n sub :: rest => (n, sub) :: subdirs rest
  | .file _ _ _ :: rest => subdirs rest

/-- Renders one violation list as the per-line block built by
check_shared_object. -/
def renderViolationLines (violations : List String) : String :=
  violations.foldl (fun acc v => acc ++ "    - " ++ v ++ "\n") ""

/-- Per-object check, from check_shared_object: fails if the file cannot be
parsed; otherwise passed is true iff both oracle violation lists are empty,
and the violations text is produced only when the check failed and
show_violations was requested. -/
def checkSharedObject (content : SoFileContent) (showViolations : Bool) :
    Except String (Bool × String) :=
  match content with
  | .unparseable => .error "Cannot parse object file"
  | .parsed d =>
    let passed := d.manylinuxViolations.isEmpty && d.pythonAbiViolations.isEmpty
    let violationsOutput :=
      if !passed && showViolations then
        (if !d.manylinuxViolations.isEmpty then
          "\n  manylinux violations:\n" ++ renderViolationLines d.manylinuxViolations
        else "") ++
        (if !d.pythonAbiViolations.isEmpty then
          "\n  python abi violations:\n" ++ renderViolationLines d.pythonAbiViolations
        else "")
      else ""
    .ok (passed, violationsOutput)

/-- A kept violation record, from struct SharedObjectViolation. -/
structure SharedObjectViolation where
  message : String
deriving DecidableEq

/-- Per-variant verdict, from struct VariantResult. -/
structure VariantResult where
  name : Str
  is_compatible : Bool
  violations : List SharedObjectViolation
  has_shared_objects : Bool
deriving DecidableEq

/-- Whole-repository ABI verdict, from struct AbiCheckResult (the Version
value is carried as its rendered string). -/
structure AbiCheckResult where
  overall_compatible : Bool
  variants : List VariantResult
  manylinux_version : String
  python_abi_version : String
deriving DecidableEq

/-- The per-shared-object loop body of check_abi_for_repository: check each
object in order, propagate check errors, and keep a violation record
exactly when the object failed and show_violations was requested. -/
def collectVariantViolations (showViolations : Bool) :
    List SoFileContent → Except String (List SharedObjectViolation)
  | [] => .ok []
  | so :: rest =>
    match checkSharedObject so showViolations with
    | .error e => .error e
    | .ok r =>
      match collectVariantViolations showViolations rest with
      | .error e => .error e
      | .ok tail =>
        .ok ((if !r.1 && showViolations then [{ message := r.2 }] else []) ++ tail)

/-- The per-variant-directory body of check_abi_for_repository: discover
shared objects; a variant with none is recorded compatible with no
violations; otherwise the variant is compatible iff no violation record was
kept. -/
def checkVariant (showViolations : Bool) (name : Str) (entries : List FsEntry) :
    Except String VariantResult :=
  let soFiles := findSharedObjects entries
  if soFiles.isEmpty then
    .ok { name := name, is_compatible := true, violations := []
          has_shared_objects := false }
  else
    match collectVariantViolations showViolations soFiles with
    | .error e => .error e
    | .ok variantViolations =>
      .ok { name := name, is_compatible := variantViolations.isEmpty
            violations := variantViolations, has_shared_objects := true }

/-- The variant loop of check_abi_for_repository, in directory order. -/
def checkVariantsList (showViolations : Bool) :
    List (Str × List FsEntry) → Except String (List VariantResult)
  | [] => .ok []
  | (n, entries) :: rest =>
    match checkVariant showViolations n entries with
    | .error e => .error e
    | .ok r =>
      match checkVariantsList showViolations rest with
      | .error e => .error e
      | .ok tail => .ok (r :: tail)

/-- Whole-repository ABI check, from check_abi_for_repository: the build
directory of the snapshot is none when absent, otherwise its listing. A
missing build directory or one with no subdirectories yields an empty
result with overall_compatible false; otherwise every immediate
subdirectory produces one variant result and overall_compatible is the
conjunction of the per-variant verdicts. -/
def checkAbiForRepository (buildDir : Option (List FsEntry))
    (manylinuxVersion pythonAbiVersion : String) (showViolations : Bool) :
    Except String AbiCheckResult :=
  match buildDir with
  | none =>
    .ok { overall_compatible := false, variants := []
          manylinux_version := manylinuxVersion
          python_abi_version := pythonAbiVersion }
  | some entries =>
    let variantPaths := subdirs entries
    if variantPaths.isEmpty then
      .ok { overall_compatible := false, variants := []
            manylinux_version := manylinuxVersion
            python_abi_version := pythonAbiVersion }
    else
      match checkVariantsList showViolations variantPaths with
      | .error e => .error e
      | .ok variantResults =>
        .ok { overall_compatible := variantResults.all (fun r => r.is_compatible)
              variants := variantResults
              manylinux_version := manylinuxVersion
              python_abi_version := pythonAbiVersion }

/-- Build-variant enumeration, from get_build_variants: list the immediate
subdirectories of the build directory and keep only the names that parse as
a five-field variant (unparseable names are silently dropped). -/
def getBuildVariants (buildDir : Option (List FsEntry)) : List Variant :=
  match buildDir with
  | none => []
  | some entries => (subdirs entries).filterMap (fun p => Variant.fromName p.1)

/-! ## Compliant-variant matrix reconciliation
(process_repository_snapshot in kernel-compliance-check/src/lib.rs and
process_repository in compliant/src/lib.rs; the model follows the default
build in which the enable_rocm feature is off) -/

/-- The CUDA matrix entries that are present among the discovered variant
name strings, from the cuda_variants_present_set computation. -/
def cudaVariantsPresentSet (cudaVariants variantStrings : List Str) : List Str :=
  cudaVariants.filter (fun v => variantStrings.contains v)

/-- The CUDA declared-matrix verdict: all required variants are present,
computed as length equality of the present subset with the matrix. -/
def cudaCompatible (cudaVariants variantStrings : List Str) : Bool :=
  (cudaVariantsPresentSet cudaVariants variantStrings).length == cudaVariants.length

/-! ## Direct fetch strategy (fetch_repository_async) -/

/-- Outcome of one remote download attempt for one file: success, a
request-type failure (ApiError::RequestError), or any other failure. -/
inductive DownloadAttempt where
  | success : DownloadAttempt
  | requestError : DownloadAttempt
  | otherError : DownloadAttempt
deriving DecidableEq

/-- The init-marker file name that the direct strategy tolerates. -/
def initMarker : Str := "__init__.py".data

/-- Substring test, embedding the str::contains call of the source. -/
def containsStr (s pat : Str) : Bool :=
  decide (pat <:+: s)

/-- Retry ceiling of the direct strategy (max_retries in the source). -/
def maxRetries : Nat := 2

/-- The per-file retry loop of fetch_repository_async in
kernel-compliance-check/src/lib.rs, with the network abstracted as the
sequence of attempt outcomes: a successful attempt returns the file name; a
request-type failure for a name containing the init marker is returned as
success immediately; any other failure retries (with backoff, not modelled)
while retry_count is below max_retries and otherwise is a per-file error. -/
def downloadFileLoop (fileName : Str) (attempts : Nat → DownloadAttempt)
    (retryCount : Nat) : Except Str Str :=
  match attempts retryCount with
  | .success => .ok fileName
  | e =>
    if containsStr fileName initMarker && decide (e = DownloadAttempt.requestError) then
      .ok fileName
    else if _h : retryCount < maxRetries then
      downloadFileLoop fileName attempts (retryCount + 1)
    else
      .error fileName
termination_by maxRetries - retryCount

/-- One file download of the direct strategy, starting with retry_count 0. -/
def downloadFile (fileName : Str) (attempts : Nat → DownloadAttempt) :
    Except Str Str :=
  downloadFileLoop fileName attempts 0

/-- Boolean success test on a per-file download result (Result::is_ok). -/
def isOkResult : Except Str Str → Bool
  | .ok _ => true
  | .error _ => false

/-- Batch aggregation of the direct strategy, from fetch_repository_async:
partition the per-file results into successes and failures; if there are
failures they are logged, and the batch is an error only when the success
count is zero; otherwise the batch succeeds. -/
def fetchBatchOutcome (downloadResults : List (Except Str Str)) :
    Except String Unit :=
  let parts := downloadResults.partition isOkResult
  let successCount := parts.1.length
  if !parts.2.isEmpty then
    if successCount == 0 then .error "All downloads failed for repository"
    else .ok ()
  else .ok ()

/-! ## Repository cache layout (folder names and repo ids) -/

/-- Leading-pattern removal followed by fallback to the input, embedding
the strip_prefix(..).unwrap_or(..) step of get_repo_id_from_path. -/
def stripLeading (pat s : Str) : Str :=
  if pat.isPrefixOf s then s.drop pat.length else s

/-- Left-to-right, non-overlapping replacement of every occurrence of pat
by rep, embedding str::replace as called by get_repo_id_from_path. -/
def replacePat (pat rep : Str) : Str → Str
  | [] => []
  | c :: cs =>
    if h : pat ≠ [] ∧ pat.isPrefixOf (c :: cs) = true then
      rep ++ replacePat pat rep ((c :: cs).drop pat.length)
    else
      c :: replacePat pat rep cs
termination_by s => s.length
decreasing_by
  · have hlen : 0 < pat.length := List.length_pos.mpr h.1
    simp only [List.length_drop, List.length_cons]
    omega
  · simp only [List.length_cons]
    omega

/-- Cache-folder name to repo id, from get_repo_id_from_path (applied to
the final path component): remove a leading models-- marker if present,
then replace every double dash by a slash. -/
def getRepoIdFromPath (dirName : Str) : Str :=
  replacePat "--".data "/".data (stripLeading "models--".data dirName)

/-- Modelled from the spec: the folder_name operation is supplied by the
external hf_hub crate (Repo::folder_name, not part of this repository);
spec section 4.2 states it builds the models--org--name directory name for
the repo id org/name. -/
def folderName (org name : Str) : Str :=
  "models--".data ++ (org ++ ("--".data ++ name))

/-! ## Compliance aggregator (process_repository in compliant/src/lib.rs) -/

/-- A snapshot directory: its build subdirectory listing, or none when the
build subdirectory is absent. -/
structure Snapshot where
  build : Option (List FsEntry)

/-- The on-disk state of one cached repository: whether the repository
directory exists, the contents of refs/main when that ref file exists, and
the snapshot directories that exist, keyed by hash. -/
structure RepoFs where
  repoDirExists : Bool
  refMain : Option Str
  snapshots : List (Str × Snapshot)

/-- Cheap cache probe, from has_build_variants: false when the ref file,
the snapshot directory named by its trimmed contents, or that snapshot's
build directory is missing, and otherwise true iff the build directory has
at least one subdirectory. -/
def hasBuildVariants (fs : RepoFs) : Bool :=
  match fs.refMain with
  | none => false
  | some content =>
    let hash := trimStr content
    match fs.snapshots.lookup hash with
    | none => false
    | some snap =>
      match snap.build with
      | none => false
      | some entries => !(subdirs entries).isEmpty

/-- Build status summary, from get_build_status_summary in the default
build (the enable_rocm feature is off, so only the totals and the CUDA
count are rendered); a variant counts as built when an entry of that name
exists in the build directory. -/
def getBuildStatusSummary (buildEntries : List FsEntry)
    (variants cudaVariants : List Str) : String :=
  let exists_ := fun (v : Str) =>
    buildEntries.any (fun e =>
      match e with
      | .file n _ _ => n == v
      | .dir n _ => n == v)
  let built := (variants.filter (fun v => exists_ v)).length
  let cudaBuilt :=
    (variants.filter (fun v => cudaVariants.contains v && exists_ v)).length
  "Total: " ++ toString built ++ " (CUDA: " ++ toString cudaBuilt ++ ")"

/-- Terminal observable outcome of process_repository for one repository:
the structured status it emits (not_found, fetch_failed, missing_snapshot,
missing_build_dir), a propagated check error, or the success payload. -/
inductive ProcessOutcome where
  | notFound : ProcessOutcome
  | fetchFailed : String → ProcessOutcome
  | missingSnapshot : ProcessOutcome
  | missingBuildDir : ProcessOutcome
  | checkError : String → ProcessOutcome
  | success : String → Bool → AbiCheckResult → ProcessOutcome
deriving DecidableEq

/-- The part of process_repository after the optional fetch (compliant/
src/lib.rs lines 963 onward): re-check refs/main, resolve the snapshot by
the trimmed hash, require the build directory, then enumerate variants,
build the status summary, run the ABI check, and compute the CUDA matrix
verdict (the rocm side is compiled out in the default build). -/
def processRepositoryResolved (fs : RepoFs) (manylinux pythonAbi : String)
    (showViolations : Bool) (cudaVariants : List Str) : ProcessOutcome :=
  match fs.refMain with
  | none => .notFound
  | some content =>
    let hash := trimStr content
    match fs.snapshots.lookup hash with
    | none => .missingSnapshot
    | some snap =>
      match snap.build with
      | none => .missingBuildDir
      | some buildEntries =>
        let variants := getBuildVariants snap.build
        let variantStrings := variants.map Variant.toString
        let buildStatus :=
          getBuildStatusSummary buildEntries variantStrings cudaVariants
        match checkAbiForRepository snap.build manylinux pythonAbi showViolations with
        | .error e => .checkError e
        | .ok abiOutput =>
          .success buildStatus (cudaCompatible cudaVariants variantStrings) abiOutput

/-- Whole process_repository for one repository, from compliant/src/lib.rs:
when the repository directory or its refs/main file is absent, either run
the fetch orchestrator (auto-fetch on) or emit the not_found result
(auto-fetch off); afterwards continue with the resolved processing. The
fetch orchestrator is abstracted as the state it would produce (or its
error); the second component counts how many times it was invoked, so zero
means no network I/O was attempted. -/
def processRepository (fs : RepoFs) (autoFetch : Bool)
    (fetchResult : Except String RepoFs) (manylinux pythonAbi : String)
    (showViolations : Bool) (cudaVariants : List Str) : ProcessOutcome × Nat :=
  if !fs.repoDirExists || fs.refMain.isNone then
    if autoFetch then
      match fetchResult with
      | .error e => (.fetchFailed e, 1)
      | .ok fsAfter =>
        (processRepositoryResolved fsAfter manylinux pythonAbi showViolations
          cudaVariants, 1)
    else (.notFound, 0)
  else
    (processRepositoryResolved fs manylinux pythonAbi showViolations
      cudaVariants, 0)

/-! ## Helper lemmas -/

/-- A successful per-variant check result carries the raw directory name it
was called with. -/
theorem checkVariant_ok_name {sv : Bool} {n : Str} {entries : List FsEntry}
    {r : VariantResult} (h : checkVariant sv n entries = .ok r) : r.name = n := by
  simp only [checkVariant] at h
  split at h
  · simp only [Except.ok.injEq] at h
    subst h
    rfl
  · split at h
    · simp at h
    · simp only [Except.ok.injEq] at h
      subst h
      rfl

/-- A successful variant-loop run produces exactly one result per variant
directory, in order, keyed by the raw directory names. -/
theorem checkVariantsList_ok_names {sv : Bool} :
    ∀ {ps : List (Str × List FsEntry)} {rs : List VariantResult},
      checkVariantsList sv ps = .ok rs →
      rs.map (fun r => r.name) = ps.map (fun p => p.1)
  | [], rs, h => by
    simp only [checkVariantsList, Except.ok.injEq] at h
    subst h
    simp
  | (n, entries) :: rest, rs, h => by
    simp only [checkVariantsList] at h
    cases hv : checkVariant sv n entries with
    | error e => rw [hv] at h; simp at h
    | ok r =>
      rw [hv] at h
      cases ht : checkVariantsList sv rest with
      | error e => rw [ht] at h; simp at h
      | ok tail =>
        rw [ht] at h
        simp only [Except.ok.injEq] at h
        subst h
        simp only [List.map_cons]
        rw [checkVariant_ok_name hv, checkVariantsList_ok_names ht]

/-- The variant display form is the five fields intercalated with a dash. -/
theorem Variant.toString_eq_intercalate (v : Variant) :
    v.toString = List.intercalate ['-']
      [v.torch_version, v.cxx_abi, v.compute_framework, v.arch, v.os] := by
  simp [Variant.toString, List.intercalate, List.intersperse]

/-- Removing a leading pattern from a list that starts with it leaves the
remainder. -/
theorem stripLeading_append (pat rest : Str) :
    stripLeading pat (pat ++ rest) = rest := by
  simp [stripLeading, List.isPrefixOf_iff_prefix, List.prefix_append, List.drop_left]

/-- Replacement on the empty list is the empty list. -/
theorem replacePat_nil (pat rep : Str) : replacePat pat rep [] = [] := by
  unfold replacePat
  rfl

/-- One-step unfolding of replacement on a nonempty list. -/
theorem replacePat_cons (pat rep : Str) (c : Char) (cs : Str) :
    replacePat pat rep (c :: cs) =
      if pat ≠ [] ∧ pat.isPrefixOf (c :: cs) = true then
        rep ++ replacePat pat rep (List.drop pat.length (c :: cs))
      else c :: replacePat pat rep cs := by
  by_cases h : pat ≠ [] ∧ pat.isPrefixOf (c :: cs) = true
  · conv_lhs => unfold replacePat
    rw [dif_pos h, if_pos h]
  · conv_lhs => unfold replacePat
    rw [dif_neg h, if_neg h]

/-- A list with no occurrence of the pattern is left unchanged by
replacement. -/
theorem replacePat_no_occurrence (pat rep : Str) :
    ∀ s : Str, ¬ pat <:+: s → replacePat pat rep s = s := by
  intro s
  induction s with
  | nil => intro h; exact replacePat_nil pat rep
  | cons c cs ih =>
    intro hinf
    rw [replacePat_cons, if_neg,
      ih (fun h => hinf (h.trans (List.suffix_cons c cs).isInfix))]
    rintro ⟨hne, hp⟩
    exact hinf ((List.isPrefixOf_iff_prefix.mp hp).isInfix)

/-- When the left part holds no double dash and does not end in a dash, the
leftmost double-dash occurrence in left ++ -- ++ right is the separator, so
replacement substitutes it and continues in the right part only. -/
theorem replacePat_boundary (rep name : Str) :
    ∀ org : Str, ¬ ((['-', '-'] : Str) <:+: org) → org.getLast? ≠ some '-' →
      replacePat ['-', '-'] rep (org ++ '-' :: '-' :: name) =
        org ++ rep ++ replacePat ['-', '-'] rep name := by
  intro org
  induction org with
  | nil =>
    intro h1 h2
    rw [List.nil_append, replacePat_cons, if_pos]
    · simp
    · exact ⟨by simp, List.isPrefixOf_iff_prefix.mpr ⟨name, rfl⟩⟩
  | cons c cs ih =>
    intro hinf hlast
    rw [List.cons_append, replacePat_cons, if_neg]
    · have hinf2 : ¬ ((['-', '-'] : Str) <:+: cs) :=
        fun h => hinf (h.trans (List.suffix_cons c cs).isInfix)
      have hlast2 : cs.getLast? ≠ some '-' := by
        cases cs with
        | nil => simp
        | cons d t => rw [List.getLast?_cons_cons] at hlast; exact hlast
      rw [ih hinf2 hlast2]
      simp
    · rintro ⟨-, hp⟩
      rw [List.isPrefixOf_iff_prefix, List.cons_prefix_cons] at hp
      obtain ⟨hc, hp2⟩ := hp
      cases cs with
      | nil =>
        subst hc
        exact hlast rfl
      | cons d t =>
        rw [List.cons_append, List.cons_prefix_cons] at hp2
        obtain ⟨hd, -⟩ := hp2
        subst hc
        subst hd
        exact hinf ⟨[], t, rfl⟩

/-! ## Claims -/

/-- C2: for every variant directory in which shared-object discovery finds
zero binaries, the produced variant result has is_compatible true,
has_shared_objects false, and an empty violations list. -/
theorem claim_C2_empty_variant_vacuously_compatible (sv : Bool) (name : Str)
    (entries : List FsEntry) (h : findSharedObjects entries = []) :
    checkVariant sv name entries =
      .ok { name := name, is_compatible := true, violations := []
            has_shared_objects := false } := by
  simp [checkVariant, h]

/-- Witness for C2 at a concrete empty variant directory. -/
theorem claim_C2_empty_variant_vacuously_compatible_witness :
    checkVariant false "torch26-cxx11-cu124-x86_64-linux".data [] =
      .ok { name := "torch26-cxx11-cu124-x86_64-linux".data
            is_compatible := true, violations := []
            has_shared_objects := false } :=
  claim_C2_empty_variant_vacuously_compatible false
    "torch26-cxx11-cu124-x86_64-linux".data [] (by simp [findSharedObjects])

/-- C3 counterexample: a build directory that exists but contains no
variant subdirectory produces an empty variants list with
overall_compatible false, while the conjunction of is_compatible over that
empty list is true, so overall_compatible is not the empty conjunction. -/
theorem claim_C3_counterexample_empty_build_dir :
    checkAbiForRepository (some []) "manylinux_2_28" "3.9" false =
      .ok { overall_compatible := false, variants := []
            manylinux_version := "manylinux_2_28", python_abi_version := "3.9" } ∧
    (([] : List VariantResult).all (fun r => r.is_compatible)) = true := by
  exact ⟨rfl, rfl⟩

/-- C3 (amended): whenever the ABI check succeeds, overall_compatible
equals the conjunction of is_compatible over the variant results when at
least one variant directory was found, and is false (with an empty variants
list) when the build directory is missing or holds no variant
subdirectories; equivalently overall_compatible is the conjunction guarded
by nonemptiness of the variants list. -/
theorem claim_C3_overall_conjunction_when_nonempty
    (buildDir : Option (List FsEntry)) (ml py : String) (sv : Bool)
    (res : AbiCheckResult)
    (h : checkAbiForRepository buildDir ml py sv = .ok res) :
    res.overall_compatible =
      (!res.variants.isEmpty && res.variants.all (fun r => r.is_compatible)) := by
  cases buildDir with
  | none =>
    simp only [checkAbiForRepository, Except.ok.injEq] at h
    subst h
    rfl
  | some entries =>
    simp only [checkAbiForRepository] at h
    split at h
    · simp only [Except.ok.injEq] at h
      subst h
      rfl
    · rename_i hne
      cases hc : checkVariantsList sv (subdirs entries) with
      | error e => rw [hc] at h; simp at h
      | ok rs =>
        rw [hc] at h
        simp only [Except.ok.injEq] at h
        subst h
        have hnames := checkVariantsList_ok_names hc
        cases rs with
        | nil =>
          exfalso
          apply hne
          have h0 : (subdirs entries).map (fun p => p.1) = [] := hnames.symm
          simp [List.map_eq_nil_iff.mp h0]
        | cons a l => simp

/-- Witness for C3 (amended) at a concrete repository with one variant
directory holding no shared objects. -/
theorem claim_C3_overall_conjunction_when_nonempty_witness :
    checkAbiForRepository (some [FsEntry.dir "foo".data []]) "m" "p" false =
      .ok { overall_compatible := true
            variants := [{ name := "foo".data, is_compatible := true
                           violations := [], has_shared_objects := false }]
            manylinux_version := "m", python_abi_version := "p" } ∧
    ({ overall_compatible := true
       variants := [{ name := "foo".data, is_compatible := true
                      violations := [], has_shared_objects := false }]
       manylinux_version := "m"
       python_abi_version := "p" : AbiCheckResult }).overall_compatible =
      (!({ overall_compatible := true
           variants := [{ name := "foo".data, is_compatible := true
                          violations := [], has_shared_objects := false }]
           manylinux_version := "m"
           python_abi_version := "p" : AbiCheckResult }).variants.isEmpty &&
        ({ overall_compatible := true
           variants := [{ name := "foo".data, is_compatible := true
                          violations := [], has_shared_objects := false }]
           manylinux_version := "m"
           python_abi_version := "p" : AbiCheckResult }).variants.all
          (fun r => r.is_compatible)) := by
  have hok : checkAbiForRepository (some [FsEntry.dir "foo".data []]) "m" "p" false =
      .ok { overall_compatible := true
            variants := [{ name := "foo".data, is_compatible := true
                           violations := [], has_shared_objects := false }]
            manylinux_version := "m", python_abi_version := "p" } := by
    simp [checkAbiForRepository, subdirs, checkVariantsList, checkVariant,
      findSharedObjects]
  exact ⟨hok, claim_C3_overall_conjunction_when_nonempty _ "m" "p" false _ hok⟩

/-- C10: a successful ABI check produces exactly one variant result per
immediate subdirectory of the build directory, keyed by the raw directory
name with no name filtering, while build-variant enumeration parses the
same names and drops the unparseable ones. -/
theorem claim_C10_abi_variants_unfiltered (entries : List FsEntry)
    (ml py : String) (sv : Bool) (res : AbiCheckResult)
    (h : checkAbiForRepository (some entries) ml py sv = .ok res) :
    res.variants.map (fun r => r.name) = (subdirs entries).map (fun p => p.1) ∧
    getBuildVariants (some entries) =
      ((subdirs entries).map (fun p => p.1)).filterMap Variant.fromName := by
  constructor
  · simp only [checkAbiForRepository] at h
    split at h
    · rename_i hemp
      simp only [Except.ok.injEq] at h
      subst h
      simp_all [List.isEmpty_iff]
    · cases hc : checkVariantsList sv (subdirs entries) with
      | error e => rw [hc] at h; simp at h
      | ok rs =>
        rw [hc] at h
        simp only [Except.ok.injEq] at h
        subst h
        exact checkVariantsList_ok_names hc
  · simp only [getBuildVariants, List.filterMap_map]
    rfl

/-- Witness for C10 at a build directory with one unparseable directory
name (foo), one parseable one, and one plain file: exactly two variant
results appear, in order, keyed by the raw names, while build-variant
enumeration keeps only the parseable name. -/
theorem claim_C10_abi_variants_unfiltered_witness :
    checkAbiForRepository
        (some [FsEntry.dir "foo".data [],
               FsEntry.file "readme".data none .unparseable,
               FsEntry.dir "torch26-cxx11-cu124-x86_64-linux".data []])
        "m" "p" false =
      .ok { overall_compatible := true
            variants := [{ name := "foo".data, is_compatible := true
                           violations := [], has_shared_objects := false },
                         { name := "torch26-cxx11-cu124-x86_64-linux".data
                           is_compatible := true, violations := []
                           has_shared_objects := false }]
            manylinux_version := "m", python_abi_version := "p" } ∧
    ([{ name := "foo".data, is_compatible := true, violations := []
        has_shared_objects := false },
      { name := "torch26-cxx11-cu124-x86_64-linux".data, is_compatible := true
        violations := [], has_shared_objects := false }] :
        List VariantResult).map (fun r => r.name) =
      (subdirs [FsEntry.dir "foo".data [],
                FsEntry.file "readme".data none .unparseable,
                FsEntry.dir "torch26-cxx11-cu124-x86_64-linux".data []]).map
        (fun p => p.1) ∧
    getBuildVariants
        (some [FsEntry.dir "foo".data [],
               FsEntry.file "readme".data none .unparseable,
               FsEntry.dir "torch26-cxx11-cu124-x86_64-linux".data []]) =
      [{ torch_version := "torch26".data, cxx_abi := "cxx11".data
         compute_framework := "cu124".data, arch := "x86_64".data
         os := "linux".data }] := by
  have hok : checkAbiForRepository
      (some [FsEntry.dir "foo".data [],
             FsEntry.file "readme".data none .unparseable,
             FsEntry.dir "torch26-cxx11-cu124-x86_64-linux".data []])
      "m" "p" false =
      .ok { overall_compatible := true
            variants := [{ name := "foo".data, is_compatible := true
                           violations := [], has_shared_objects := false },
                         { name := "torch26-cxx11-cu124-x86_64-linux".data
                           is_compatible := true, violations := []
                           has_shared_objects := false }]
            manylinux_version := "m", python_abi_version := "p" } := by
    simp [checkAbiForRepository, subdirs, checkVariantsList, checkVariant,
      findSharedObjects]
  refine ⟨hok, (claim_C10_abi_variants_unfiltered _ "m" "p" false _ hok).1, ?_⟩
  decide

/-- C4: cuda_compatible is true iff every name in the compliant-variant
matrix CUDA list is present among the discovered variant name strings, and
discovered variants outside the matrix never affect the verdict. -/
theorem claim_C4_cuda_matrix_superset (cudaVariants variantStrings : List Str) :
    (cudaCompatible cudaVariants variantStrings = true ↔
      ∀ v ∈ cudaVariants, v ∈ variantStrings) ∧
    (∀ extra : List Str, (∀ v ∈ extra, v ∉ cudaVariants) →
      cudaCompatible cudaVariants (variantStrings ++ extra) =
        cudaCompatible cudaVariants variantStrings) := by
  have hiff : ∀ strs : List Str,
      (cudaCompatible cudaVariants strs = true ↔ ∀ v ∈ cudaVariants, v ∈ strs) := by
    intro strs
    unfold cudaCompatible cudaVariantsPresentSet
    rw [beq_iff_eq]
    constructor
    · intro hlen v hv
      have hsub := List.filter_sublist (p := fun v => strs.contains v) cudaVariants
      have heq := hsub.eq_of_length hlen
      have hc := List.filter_eq_self.mp heq v hv
      simpa [List.contains, List.elem_iff] using hc
    · intro hmem
      have heq : List.filter (fun v => strs.contains v) cudaVariants = cudaVariants := by
        apply List.filter_eq_self.mpr
        intro a ha
        simpa [List.contains, List.elem_iff] using hmem a ha
      rw [heq]
  refine ⟨hiff variantStrings, ?_⟩
  intro extra hextra
  rw [Bool.eq_iff_iff, hiff, hiff]
  constructor
  · intro h v hv
    rcases List.mem_append.mp (h v hv) with h1 | h2
    · exact h1
    · exact absurd hv (hextra v h2)
  · intro h v hv
    exact List.mem_append.mpr (Or.inl (h v hv))

/-- Witness for C4 on a concrete matrix and variant set, including an extra
discovered variant outside the matrix. -/
theorem claim_C4_cuda_matrix_superset_witness :
    cudaCompatible ["a".data, "b".data] ["b".data, "a".data, "zzz".data] = true ∧
    cudaCompatible ["a".data, "b".data] (["b".data, "a".data] ++ ["zzz".data]) =
      cudaCompatible ["a".data, "b".data] ["b".data, "a".data] := by
  constructor
  · exact (claim_C4_cuda_matrix_superset ["a".data, "b".data]
      ["b".data, "a".data, "zzz".data]).1.mpr (by decide)
  · exact (claim_C4_cuda_matrix_superset ["a".data, "b".data]
      ["b".data, "a".data]).2 ["zzz".data] (by decide)

/-- C5 counterexample: an empty batch has no successful file, and every one
of its zero files failed, yet the batch returns success rather than a
FetchError, so the claim fails at N = 0. -/
theorem claim_C5_counterexample_empty_batch :
    (∀ r ∈ ([] : List (Except Str Str)), isOkResult r = false) ∧
    fetchBatchOutcome [] = .ok () := by
  exact ⟨by simp, rfl⟩

/-- C5 (amended): the batch returns success whenever at least one file
succeeded, and returns the FetchError exactly when there was at least one
file and all files failed (an empty batch succeeds). -/
theorem claim_C5_partial_failure_semantics
    (downloadResults : List (Except Str Str)) :
    ((∃ r ∈ downloadResults, isOkResult r = true) →
      fetchBatchOutcome downloadResults = .ok ()) ∧
    (fetchBatchOutcome downloadResults =
        .error "All downloads failed for repository" ↔
      downloadResults ≠ [] ∧ ∀ r ∈ downloadResults, isOkResult r = false) := by
  constructor
  · rintro ⟨r, hr, hok⟩
    simp only [fetchBatchOutcome, List.partition_eq_filter_filter]
    have hnil : downloadResults.filter isOkResult ≠ [] := by
      intro hnil
      have hfalse := List.filter_eq_nil_iff.mp hnil r hr
      simp [hok] at hfalse
    have hne : (downloadResults.filter isOkResult).length ≠ 0 := by
      simpa [List.length_eq_zero] using hnil
    split
    · simp [hne]
    · rfl
  · simp only [fetchBatchOutcome, List.partition_eq_filter_filter]
    constructor
    · intro h
      split at h
      · rename_i hfail
        split at h
        · rename_i hzero
          have hempty : downloadResults.filter isOkResult = [] := by
            rw [← List.length_eq_zero]
            simpa [beq_iff_eq] using hzero
          constructor
          · intro hnil
            subst hnil
            simp at hfail
          · intro r hr
            by_contra hok
            have hok2 : isOkResult r = true := by
              revert hok
              cases isOkResult r <;> simp
            have hmem : r ∈ downloadResults.filter isOkResult :=
              List.mem_filter.mpr ⟨hr, hok2⟩
            simp [hempty] at hmem
        · simp at h
      · simp at h
    · rintro ⟨hne, hall⟩
      have hok0 : downloadResults.filter isOkResult = [] := by
        apply List.filter_eq_nil_iff.mpr
        intro a ha
        simp [hall a ha]
      have hfail : downloadResults.filter (not ∘ isOkResult) = downloadResults := by
        apply List.filter_eq_self.mpr
        intro a ha
        simp [Function.comp, hall a ha]
      rw [hok0, hfail]
      cases downloadResults with
      | nil => exact absurd rfl hne
      | cons a l => simp

/-- Witness for C5 (amended): a batch with one success and one failure
succeeds, and a batch whose single file failed is the FetchError. -/
theorem claim_C5_partial_failure_semantics_witness :
    fetchBatchOutcome [Except.ok "a".data, Except.error "b".data] = .ok () ∧
    fetchBatchOutcome [Except.error "b".data] =
      .error "All downloads failed for repository" := by
  constructor
  · exact (claim_C5_partial_failure_semantics _).1
      ⟨Except.ok "a".data, by simp, rfl⟩
  · refine (claim_C5_partial_failure_semantics _).2.mpr ⟨by simp, ?_⟩
    intro r hr
    simp only [List.mem_singleton] at hr
    subst hr
    rfl

/-- C9: a request-type failure on the first attempt for a file whose name
contains the init marker is an immediate per-file success (no retry can
influence it), while for every other file name the download succeeds iff
one of the three allowed attempts (initial plus max_retries retries)
succeeds, and otherwise fails. -/
theorem claim_C9_init_marker_tolerance (fileName : Str)
    (attempts : Nat → DownloadAttempt) :
    (containsStr fileName initMarker = true →
      attempts 0 = DownloadAttempt.requestError →
      downloadFile fileName attempts = .ok fileName) ∧
    (containsStr fileName initMarker = false →
      (downloadFile fileName attempts = .ok fileName ↔
        attempts 0 = DownloadAttempt.success ∨
        attempts 1 = DownloadAttempt.success ∨
        attempts 2 = DownloadAttempt.success)) := by
  have hsucc : ∀ k, attempts k = DownloadAttempt.success →
      downloadFileLoop fileName attempts k = .ok fileName := by
    intro k hk
    rw [downloadFileLoop, hk]
  have hstep : containsStr fileName initMarker = false →
      ∀ k, k < maxRetries → attempts k ≠ DownloadAttempt.success →
      downloadFileLoop fileName attempts k =
        downloadFileLoop fileName attempts (k + 1) := by
    intro hc k hk hks
    rw [downloadFileLoop]
    rcases hak : attempts k with _ | _ | _
    · exact absurd hak hks
    · simp [hc, hk]
    · simp [hc, hk]
  have hlast : containsStr fileName initMarker = false →
      ∀ k, ¬ k < maxRetries → attempts k ≠ DownloadAttempt.success →
      downloadFileLoop fileName attempts k = .error fileName := by
    intro hc k hk hks
    rw [downloadFileLoop]
    rcases hak : attempts k with _ | _ | _
    · exact absurd hak hks
    · simp [hc, hk]
    · simp [hc, hk]
  constructor
  · intro hc h0
    rw [downloadFile, downloadFileLoop, h0]
    simp [hc]
  · intro hc
    rw [downloadFile]
    constructor
    · intro h
      by_contra hno
      push_neg at hno
      obtain ⟨h0, h1, h2⟩ := hno
      rw [hstep hc 0 (by decide) h0, hstep hc 1 (by decide) h1,
        hlast hc 2 (by decide) h2] at h
      simp at h
    · rintro (h0 | h1 | h2)
      · exact hsucc 0 h0
      · by_cases ha0 : attempts 0 = DownloadAttempt.success
        · exact hsucc 0 ha0
        · rw [hstep hc 0 (by decide) ha0]
          exact hsucc 1 h1
      · by_cases ha0 : attempts 0 = DownloadAttempt.success
        · exact hsucc 0 ha0
        · rw [hstep hc 0 (by decide) ha0]
          by_cases ha1 : attempts 1 = DownloadAttempt.success
          · exact hsucc 1 ha1
          · rw [hstep hc 1 (by decide) ha1]
            exact hsucc 2 h2

/-- Witness for C9: an init-marker file whose every attempt is a request
failure still downloads as a success, and an ordinary file that only
succeeds on its final allowed attempt downloads successfully. -/
theorem claim_C9_init_marker_tolerance_witness :
    downloadFile "pkg/__init__.py".data (fun _ => DownloadAttempt.requestError) =
      .ok "pkg/__init__.py".data ∧
    downloadFile "pkg/module.py".data
        (fun k => if k = 2 then DownloadAttempt.success
                  else DownloadAttempt.requestError) =
      .ok "pkg/module.py".data := by
  constructor
  · exact (claim_C9_init_marker_tolerance _ _).1 (by decide) rfl
  · exact ((claim_C9_init_marker_tolerance _ _).2 (by decide)).mpr
      (Or.inr (Or.inr rfl))

/-- C6 counterexample: the ref file refs/main exists and names hash abc123,
the snapshot directory exists but its build output is absent; with
auto-fetch disabled processing emits the missing_build_dir status without
invoking the fetch orchestrator, and that status is not not_found. -/
theorem claim_C6_counterexample_status :
    processRepository
        { repoDirExists := true, refMain := some "abc123\n".data
          snapshots := [("abc123".data, { build := none })] }
        false (.error "network unavailable") "manylinux_2_28" "3.9" false [] =
      (.missingBuildDir, 0) ∧
    ProcessOutcome.missingBuildDir ≠ ProcessOutcome.notFound := by
  exact ⟨by decide, by decide⟩

/-- C6 (amended): when the repository directory and its ref file exist but
the named snapshot is absent, or present without build output, the cache
probe reports not ready and processing with auto-fetch disabled emits the
structured missing_snapshot (respectively missing_build_dir) status with
zero fetch invocations, hence no network I/O; the not_found status arises
only when the ref file itself is missing. -/
theorem claim_C6_not_ready_no_network (fs : RepoFs) (c : Str)
    (fetchResult : Except String RepoFs) (ml py : String) (sv : Bool)
    (cuda : List Str) (hrepo : fs.repoDirExists = true)
    (href : fs.refMain = some c) :
    (fs.snapshots.lookup (trimStr c) = none →
      hasBuildVariants fs = false ∧
      processRepository fs false fetchResult ml py sv cuda =
        (.missingSnapshot, 0)) ∧
    (∀ snap, fs.snapshots.lookup (trimStr c) = some snap → snap.build = none →
      hasBuildVariants fs = false ∧
      processRepository fs false fetchResult ml py sv cuda =
        (.missingBuildDir, 0)) := by
  have hcond : (!fs.repoDirExists || fs.refMain.isNone) = false := by
    simp [hrepo, href]
  constructor
  · intro hlook
    constructor
    · simp [hasBuildVariants, href, hlook]
    · simp [processRepository, hcond, processRepositoryResolved, href, hlook,
        hrepo]
  · intro snap hlook hbuild
    constructor
    · simp [hasBuildVariants, href, hlook, hbuild]
    · simp [processRepository, hcond, processRepositoryResolved, href, hlook,
        hbuild, hrepo]

/-- Witness for C6 (amended) at the concrete scenario of the spec: ref
contents abc123 with a trailing newline, snapshot present, build absent. -/
theorem claim_C6_not_ready_no_network_witness :
    hasBuildVariants
        { repoDirExists := true, refMain := some "abc123\n".data
          snapshots := [("abc123".data, { build := none })] } = false ∧
    processRepository
        { repoDirExists := true, refMain := some "abc123\n".data
          snapshots := [("abc123".data, { build := none })] }
        false (.error "offline") "manylinux_2_28" "3.9" false [] =
      (.missingBuildDir, 0) :=
  (claim_C6_not_ready_no_network _ "abc123\n".data _ "manylinux_2_28" "3.9"
    false [] rfl rfl).2 { build := none } rfl rfl

/-- C1: the claim fails on the code. For a variant directory with one
shared object whose manylinux check reports a violation, the per-object
check reports passed = false, yet with show_violations off the variant is
recorded is_compatible = true (and the repository overall compatible),
while the identical input with show_violations on is recorded
is_compatible = false: the verdict is gated by the display flag because a
violation record is only kept when !passed && show_violations and
is_compatible is defined as emptiness of the kept records. -/
theorem claim_C1_verdict_gated_by_show_violations :
    checkSharedObject
        (.parsed { manylinuxViolations := ["GLIBC_2.34"]
                   pythonAbiViolations := [] }) false =
      .ok (false, "") ∧
    checkAbiForRepository
        (some [FsEntry.dir "torch26-cxx11-cu124-x86_64-linux".data
          [FsEntry.file "kernel.so".data (some "so".data)
            (.parsed { manylinuxViolations := ["GLIBC_2.34"]
                       pythonAbiViolations := [] })]])
        "manylinux_2_28" "3.9" false =
      .ok { overall_compatible := true
            variants := [{ name := "torch26-cxx11-cu124-x86_64-linux".data
                           is_compatible := true, violations := []
                           has_shared_objects := true }]
            manylinux_version := "manylinux_2_28"
            python_abi_version := "3.9" } ∧
    checkAbiForRepository
        (some [FsEntry.dir "torch26-cxx11-cu124-x86_64-linux".data
          [FsEntry.file "kernel.so".data (some "so".data)
            (.parsed { manylinuxViolations := ["GLIBC_2.34"]
                       pythonAbiViolations := [] })]])
        "manylinux_2_28" "3.9" true =
      .ok { overall_compatible := false
            variants := [{ name := "torch26-cxx11-cu124-x86_64-linux".data
                           is_compatible := false
                           violations := [{ message :=
                             "\n  manylinux violations:\n    - GLIBC_2.34\n" }]
                           has_shared_objects := true }]
            manylinux_version := "manylinux_2_28"
            python_abi_version := "3.9" } := by
  refine ⟨rfl, ?_, ?_⟩ <;>
    simp [checkAbiForRepository, subdirs, checkVariantsList, checkVariant,
      findSharedObjects, collectVariantViolations, checkSharedObject,
      renderViolationLines]

/-- C7: variant-name parsing succeeds exactly when the name has at least
five dash-separated segments, and for a variant whose five fields are
non-empty and dash-free, parsing its display form yields the variant back,
so format(parse(format v)) = format v. -/
theorem claim_C7_parse_format_roundtrip (name : Str) (v : Variant)
    (hne : ∀ f ∈ [v.torch_version, v.cxx_abi, v.compute_framework,
      v.arch, v.os], f ≠ [])
    (hdash : ∀ f ∈ [v.torch_version, v.cxx_abi, v.compute_framework,
      v.arch, v.os], '-' ∉ f) :
    ((Variant.fromName name).isSome ↔ 5 ≤ (name.splitOn '-').length) ∧
    Variant.fromName v.toString = some v ∧
    (Variant.fromName v.toString).map Variant.toString = some v.toString := by
  have hsplit : v.toString.splitOn '-' =
      [v.torch_version, v.cxx_abi, v.compute_framework, v.arch, v.os] := by
    rw [Variant.toString_eq_intercalate]
    exact List.splitOn_intercalate _ '-' hdash (by simp)
  have hparse : Variant.fromName v.toString = some v := by
    simp only [Variant.fromName, hsplit]
    norm_num
    simp [hsplit]
  refine ⟨?_, hparse, by rw [hparse]; rfl⟩
  constructor
  · intro hs
    by_contra hlt
    push_neg at hlt
    simp [Variant.fromName, hlt] at hs
  · intro hge
    simp [Variant.fromName, Nat.not_lt.mpr hge]

/-- Witness for C7 at the canonical variant of the spec scenario. -/
theorem claim_C7_parse_format_roundtrip_witness :
    Variant.fromName
        (Variant.toString { torch_version := "torch26".data
                            cxx_abi := "cxx11".data
                            compute_framework := "cu124".data
                            arch := "x86_64".data, os := "linux".data }) =
      some { torch_version := "torch26".data, cxx_abi := "cxx11".data
             compute_framework := "cu124".data, arch := "x86_64".data
             os := "linux".data } :=
  (claim_C7_parse_format_roundtrip "torch26-cxx11-cu124".data
    { torch_version := "torch26".data, cxx_abi := "cxx11".data
      compute_framework := "cu124".data, arch := "x86_64".data
      os := "linux".data } (by decide) (by decide)).2.1

/-- C8 counterexample: for org = a- and name = b, neither part contains a
literal double dash, yet converting org/name to its cache folder name and
back yields a/-b rather than a-/b, because the leftmost double-dash match
in a---b consumes the trailing dash of org. -/
theorem claim_C8_counterexample_trailing_dash :
    ¬ ("--".data <:+: "a-".data) ∧ ¬ ("--".data <:+: "b".data) ∧
    getRepoIdFromPath (folderName "a-".data "b".data) = "a/-b".data ∧
    "a/-b".data ≠ "a-/b".data := by
  refine ⟨by decide, by decide, ?_, by decide⟩
  simp only [getRepoIdFromPath, folderName, stripLeading]
  norm_num [replacePat]
  decide

/-- C8 (amended): folder-name building and get_repo_id_from_path are exact
inverses for every org/name in which neither part contains a literal double
dash and org does not end in a dash (the extra condition the counterexample
forces). -/
theorem claim_C8_folder_roundtrip (org name : Str)
    (horg : ¬ ("--".data <:+: org)) (hname : ¬ ("--".data <:+: name))
    (hlast : org.getLast? ≠ some '-') :
    getRepoIdFromPath (folderName org name) = org ++ '/' :: name := by
  have horg2 : ¬ ((['-', '-'] : Str) <:+: org) := horg
  have hname2 : ¬ ((['-', '-'] : Str) <:+: name) := hname
  unfold getRepoIdFromPath folderName
  rw [stripLeading_append]
  show replacePat ['-', '-'] ['/'] (org ++ '-' :: '-' :: name) = org ++ '/' :: name
  rw [replacePat_boundary ['/'] name org horg2 hlast,
    replacePat_no_occurrence ['-', '-'] ['/'] name hname2]
  simp

/-- Witness for C8 (amended) at org/name = kernels/flash-attn. -/
theorem claim_C8_folder_roundtrip_witness :
    getRepoIdFromPath (folderName "kernels".data "flash-attn".data) =
      "kernels".data ++ '/' :: "flash-attn".data :=
  claim_C8_folder_roundtrip "kernels".data "flash-attn".data
    (by decide) (by decide) (by decide)

end KernelBuilder
